import Mathlib

/-!
# droidian-camera: application controller and barcode adapter

A shallow embedding of `src/appcontroller.cpp` and `src/zxingreader.h`.

Stateful C++ methods become functions that take the object and the values they
read from their collaborators (GSettings, the QML scene, the settings manager,
the elapsed timer) and return the updated object together with the list of
observable actions they performed, in program order.  Pointers to helper
objects are embedded by their null-ness.
-/

namespace AppController

/-- Observable actions of the controller, in the order the code performs them. -/
inductive Effect where
  /-- `qDebug() << "Error: Failed to create GSettings object."` -/
  | debugGSettingsError
  /-- `g_signal_connect(settings, "changed::camera-background", ...)` -/
  | listenerConnected
  /-- `QTimer::singleShot(0, QCoreApplication::instance(), &QCoreApplication::quit)` -/
  | quitRequested
  /-- `m_fileManager->turnOffGps()` -/
  | turnOffGps
  /-- `m_window->hide()` -/
  | windowHide
  /-- `camera->setProperty("active", true)` followed by its debug message -/
  | cameraSetActive
  /-- `m_fileManager->restartGps()` -/
  | restartGps
  /-- `m_window->show()` -/
  | windowShow
  /-- `m_window->raise()` -/
  | windowRaise
  /-- `m_window->requestActivate()` -/
  | windowRequestActivate
  /-- `QCoreApplication::exit(-1)` -/
  | exitRequested (code : Int)
  /-- `window->setFlag(Qt::Window)` -/
  | windowSetFlag
  /-- `connect(window, SIGNAL(customClosing()), this, SLOT(hideWindow()))` -/
  | customClosingConnected
  /-- `ZXingQt::registerQmlAndMetaTypes()` and the context properties of `setupEngine` -/
  | engineSetUp
  /-- `m_engine->load(url)` -/
  | engineLoad
  deriving DecidableEq, Repr

end AppController

/-- The members of `class AppController` that the modelled methods read or
write; a pointer member is `true` when it is non-null. -/
structure AppController where
  m_hidden_window : Bool
  m_engine : Bool
  m_window : Bool
  m_flashlightController : Bool
  m_fileManager : Bool
  m_thumbnailGenerator : Bool
  m_qrCodeHandler : Bool
  deriving DecidableEq, Repr

namespace AppController

/-- `AppController::check_gsettings_background`.  `settings` is what the call
reads from GSettings: `none` when `g_settings_new` yields no object, otherwise
the boolean stored under `camera-background`. -/
def check_gsettings_background (self : AppController) (settings : Option Bool) :
    AppController × List Effect :=
  match settings with
  | none => (self, [Effect.debugGSettingsError])
  | some value =>
    if !value && self.m_hidden_window then
      (self, [Effect.quitRequested])
    else
      (self, [])

/-- `AppController::setup_gsettings_listener`; `settingsCreated` tells whether
`g_settings_new` produced an object. -/
def setup_gsettings_listener (self : AppController) (settingsCreated : Bool) :
    AppController × List Effect :=
  if !settingsCreated then
    (self, [Effect.debugGSettingsError])
  else
    (self, [Effect.listenerConnected])

/-- The constructor `AppController::AppController`: the member initialisers
followed by `setup_gsettings_listener()`. -/
def construct (settingsCreated : Bool) : AppController × List Effect :=
  setup_gsettings_listener
    { m_hidden_window := false
      m_engine := false
      m_window := false
      m_flashlightController := false
      m_fileManager := false
      m_thumbnailGenerator := false
      m_qrCodeHandler := false }
    settingsCreated

/-- `AppController::on_gsettings_changed` (static; `self` is `user_data`).
`settings` is the reading made by the nested `check_gsettings_background`. -/
def on_gsettings_changed (self : AppController) (key : String) (settings : Option Bool) :
    AppController × List Effect :=
  if key = "camera-background" then
    check_gsettings_background self settings
  else
    (self, [])

/-- `AppController::hideWindow`. -/
def hideWindow (self : AppController) (settings : Option Bool) :
    AppController × List Effect :=
  let self1 := { self with m_hidden_window := true }
  if self1.m_window then
    let r := check_gsettings_background self1 settings
    (r.1, [Effect.turnOffGps, Effect.windowHide] ++ r.2)
  else
    (self1, [])

/-- `AppController::loadCamera`; `cameraFound` tells whether the root object
has a child named `cameraLoader`. -/
def loadCamera (self : AppController) (cameraFound : Bool) : AppController × List Effect :=
  if cameraFound then (self, [Effect.cameraSetActive]) else (self, [])

/-- `AppController::restartGpsIfNeeded`; `gpsOn` is `SettingsManager::instance().gpsOn()`. -/
def restartGpsIfNeeded (self : AppController) (gpsOn : Bool) : AppController × List Effect :=
  if self.m_fileManager && gpsOn then (self, [Effect.restartGps]) else (self, [])

/-- `AppController::showWindow`. -/
def showWindow (self : AppController) (cameraFound gpsOn : Bool) :
    AppController × List Effect :=
  let self1 := { self with m_hidden_window := false }
  if self1.m_window then
    let r1 := loadCamera self1 cameraFound
    let r2 := restartGpsIfNeeded r1.1 gpsOn
    (r2.1, r1.2 ++ r2.2 ++
      [Effect.windowShow, Effect.windowRaise, Effect.windowRequestActivate])
  else
    (self1, [])

/-- `AppController::initialize` (a reserved word here, hence the longer name):
`setupEngine` creates the helper objects and
`loadMainWindow` starts loading the main QML file. -/
def initializeApp (self : AppController) : AppController × List Effect :=
  ({ self with
      m_engine := true
      m_flashlightController := true
      m_fileManager := true
      m_thumbnailGenerator := true
      m_qrCodeHandler := true },
   [Effect.engineSetUp, Effect.engineLoad])

/-- What the engine reports to the `objectCreated` handler. -/
inductive CreatedObject where
  /-- `obj == nullptr` -/
  | null
  /-- `qobject_cast<QQuickWindow*>(obj)` succeeds -/
  | window
  /-- any other object -/
  | other
  deriving DecidableEq, Repr

/-- The `objectCreated` handler installed by `AppController::loadMainWindow`;
`sameUrl` is `url == objUrl`. -/
def objectCreated (self : AppController) (obj : CreatedObject) (sameUrl : Bool) :
    AppController × List Effect :=
  let e1 := if obj = CreatedObject.null && sameUrl then [Effect.exitRequested (-1)] else []
  if obj = CreatedObject.window then
    ({ self with m_window := true },
      e1 ++ [Effect.windowSetFlag, Effect.customClosingConnected])
  else
    (self, e1)

/-- The calls that reach a constructed controller from the event loop. -/
inductive Event where
  | initializeApp
  | objectCreated (obj : CreatedObject) (sameUrl : Bool)
  | hideWindow (settings : Option Bool)
  | showWindow (cameraFound gpsOn : Bool)
  | gsettingsChanged (key : String) (settings : Option Bool)
  deriving DecidableEq, Repr

/-- One event handled by the controller.  The `objectCreated` handler exists
only once `loadMainWindow` has connected it to the engine. -/
def step (self : AppController) : Event → AppController × List Effect
  | Event.initializeApp => initializeApp self
  | Event.objectCreated obj sameUrl =>
    if self.m_engine then objectCreated self obj sameUrl else (self, [])
  | Event.hideWindow settings => hideWindow self settings
  | Event.showWindow cameraFound gpsOn => showWindow self cameraFound gpsOn
  | Event.gsettingsChanged key settings => on_gsettings_changed self key settings

/-- The controller after a sequence of events, with everything it did. -/
def run (self : AppController) : List Event → AppController × List Effect
  | [] => (self, [])
  | e :: es =>
    let r := step self e
    let rs := run r.1 es
    (rs.1, r.2 ++ rs.2)

/-- The GSettings value an event's handler may read. -/
def Event.settingsRead : Event → Option Bool
  | Event.hideWindow settings => settings
  | Event.gsettingsChanged _ settings => settings
  | _ => none

/-- How one event moves the hidden flag according to the event history alone:
`hideWindow` sets it, `showWindow` clears it, every other event keeps it. -/
def hiddenStep (h : Bool) : Event → Bool
  | Event.hideWindow _ => true
  | Event.showWindow _ _ => false
  | _ => h

/-- The hidden flag as the event history alone determines it: false at the
start, then moved by `hiddenStep` event by event. -/
def hiddenAfter (es : List Event) : Bool :=
  es.foldl hiddenStep false

/-- An event is a call of `hideWindow`. -/
def Event.isHide : Event → Bool
  | Event.hideWindow _ => true
  | _ => false

end AppController

/-! ## Types of the libraries the adapter is written against -/

namespace ZXing

/-- `ZXing::ImageFormat`, the pixel layouts the decoder accepts. -/
inductive ImageFormat where
  | None
  | Lum
  | RGB
  | BGR
  | RGBX
  | XRGB
  | BGRX
  | XBGR
  deriving DecidableEq, Repr

/-- The arguments of the `ZXing::ImageView` constructor: the address of the
first sampled byte, the size, the format, and the row and pixel strides (a
pixel stride of 0 is the constructor's default argument). -/
structure ImageView where
  data : Int
  width : Int
  height : Int
  format : ImageFormat
  rowStride : Int
  pixStride : Int
  deriving DecidableEq, Repr

/-- `ZXing::ReaderOptions`: the option set handed to the decoder.  `formats`
holds the integer behind `BarcodeFormats`. -/
structure ReaderOptions where
  formats : Int
  tryHarder : Bool
  tryRotate : Bool
  tryInvert : Bool
  tryDownscale : Bool
  isPure : Bool
  returnErrors : Bool
  binarizer : Nat
  minLineCount : Nat
  maxNumberOfSymbols : Nat
  deriving DecidableEq, Repr

/-- `ReaderOptions::setMaxNumberOfSymbols`. -/
def ReaderOptions.setMaxNumberOfSymbols (o : ReaderOptions) (n : Nat) : ReaderOptions :=
  { o with maxNumberOfSymbols := n }

/-- `ReaderOptions::setFormats`. -/
def ReaderOptions.setFormats (o : ReaderOptions) (v : Int) : ReaderOptions :=
  { o with formats := v }

/-- `ReaderOptions::setTryRotate`. -/
def ReaderOptions.setTryRotate (o : ReaderOptions) (v : Bool) : ReaderOptions :=
  { o with tryRotate := v }

/-- `ReaderOptions::setTryHarder`. -/
def ReaderOptions.setTryHarder (o : ReaderOptions) (v : Bool) : ReaderOptions :=
  { o with tryHarder := v }

/-- `ReaderOptions::setTryDownscale`. -/
def ReaderOptions.setTryDownscale (o : ReaderOptions) (v : Bool) : ReaderOptions :=
  { o with tryDownscale := v }

/-- A default-constructed `ZXing::ReaderOptions`. -/
def ReaderOptions.default : ReaderOptions :=
  { formats := 0
    tryHarder := true
    tryRotate := true
    tryInvert := true
    tryDownscale := true
    isPure := false
    returnErrors := false
    binarizer := 0
    minLineCount := 2
    maxNumberOfSymbols := 255 }

/-- `ZXing::PointI`. -/
structure PointI where
  x : Int
  y : Int
  deriving DecidableEq, Repr

/-- `ZXing::Quadrilateral<P>`: the corners at indices 0 to 3. -/
structure Quadrilateral (P : Type) where
  topLeft : P
  topRight : P
  bottomRight : P
  bottomLeft : P
  deriving DecidableEq, Repr

/-- `ZXing::Result` (a decoded symbol), as far as the adapter reads it. -/
structure Result where
  format : Int
  symbologyCode : Nat
  hasError : Bool
  text : String
  bytes : List Nat
  position : Quadrilateral PointI
  contentType : Nat
  deriving DecidableEq, Repr

/-- `ZXing::Result::isValid`. -/
def Result.isValid (r : Result) : Bool :=
  r.format != 0 && r.symbologyCode != 0 && !r.hasError

/-- A default-constructed `ZXing::Result`: format `None`, no content. -/
def Result.default : Result :=
  { format := 0
    symbologyCode := 0
    hasError := false
    text := ""
    bytes := []
    position :=
      { topLeft := { x := 0, y := 0 }
        topRight := { x := 0, y := 0 }
        bottomRight := { x := 0, y := 0 }
        bottomLeft := { x := 0, y := 0 } }
    contentType := 0 }

end ZXing

/-- `QPoint`. -/
structure QPoint where
  x : Int
  y : Int
  deriving DecidableEq, Repr

namespace QImage

/-- `QImage::Format` of Qt 5.15; `Other` stands for an enumerator of another
Qt version. -/
inductive Format where
  | Format_Invalid
  | Format_Mono
  | Format_MonoLSB
  | Format_Indexed8
  | Format_RGB32
  | Format_ARGB32
  | Format_ARGB32_Premultiplied
  | Format_RGB16
  | Format_ARGB8565_Premultiplied
  | Format_RGB666
  | Format_ARGB6666_Premultiplied
  | Format_RGB555
  | Format_ARGB8555_Premultiplied
  | Format_RGB888
  | Format_RGB444
  | Format_ARGB4444_Premultiplied
  | Format_RGBX8888
  | Format_RGBA8888
  | Format_RGBA8888_Premultiplied
  | Format_BGR30
  | Format_A2BGR30_Premultiplied
  | Format_RGB30
  | Format_A2RGB30_Premultiplied
  | Format_Alpha8
  | Format_Grayscale8
  | Format_RGBX64
  | Format_RGBA64
  | Format_RGBA64_Premultiplied
  | Format_Grayscale16
  | Format_BGR888
  | Other (value : Nat)
  deriving DecidableEq, Repr

end QImage

/-- What the adapter reads of a `QImage`: `format()`, `bits()` (an address),
`width()`, `height()` and `bytesPerLine()`. -/
structure QImage where
  format : QImage.Format
  bits : Int
  width : Int
  height : Int
  bytesPerLine : Int
  deriving DecidableEq, Repr

namespace QVideoFrame

/-- `QVideoFrame::PixelFormat` of Qt 5; `Format_User n` is `Format_User + n`. -/
inductive PixelFormat where
  | Format_Invalid
  | Format_ARGB32
  | Format_ARGB32_Premultiplied
  | Format_RGB32
  | Format_RGB24
  | Format_RGB565
  | Format_RGB555
  | Format_ARGB8565_Premultiplied
  | Format_BGRA32
  | Format_BGRA32_Premultiplied
  | Format_BGR32
  | Format_BGR24
  | Format_BGR565
  | Format_BGR555
  | Format_BGRA5658_Premultiplied
  | Format_AYUV444
  | Format_AYUV444_Premultiplied
  | Format_YUV444
  | Format_YUV420P
  | Format_YV12
  | Format_UYVY
  | Format_YUYV
  | Format_NV12
  | Format_NV21
  | Format_IMC1
  | Format_IMC2
  | Format_IMC3
  | Format_IMC4
  | Format_Y8
  | Format_Y16
  | Format_Jpeg
  | Format_CameraRaw
  | Format_AdobeDng
  | Format_ABGR32
  | Format_YUV422P
  | Format_User (n : Nat)
  deriving DecidableEq, Repr

/-- The Qt 5 minor version that introduced the enumerator: the switch guards
`Format_ABGR32` by Qt 5.13 and `Format_YUV422P` by Qt 5.14. -/
def PixelFormat.since : PixelFormat → Nat
  | Format_ABGR32 => 13
  | Format_YUV422P => 14
  | _ => 0

end QVideoFrame

/-- What the adapter reads of a Qt 5 `QVideoFrame`: `pixelFormat()`,
`isValid()`, whether `map(ReadOnly)` succeeds, and, once mapped, `bits()` (the
address of the first plane), `width()`, `height()`, `bytesPerLine()`. -/
structure QVideoFrame where
  pixelFormat : QVideoFrame.PixelFormat
  isValid : Bool
  mapSucceeds : Bool
  bits : Int
  width : Int
  height : Int
  bytesPerLine : Int
  deriving DecidableEq, Repr

/-! ## The barcode adapter (`zxingreader.h`, Qt 5 branch of the conditionals) -/

namespace ZXingQt

open ZXing (ImageFormat ImageView ReaderOptions)

/-- The build parameters the preprocessor conditionals test: `Q_BYTE_ORDER`
and, for a Qt 5 build, the minor version in `QT_VERSION`. -/
structure Build where
  littleEndian : Bool
  qtMinor : Nat
  deriving DecidableEq, Repr

/-- The library routines the adapter calls: `QImage::convertToFormat`,
`QVideoFrame::imageFormatFromPixelFormat`, `QVideoFrame::image` and the
decoder `ZXing::ReadBarcodes`. -/
structure External where
  convertToFormat : QImage → QImage.Format → QImage
  imageFormatFromPixelFormat : QVideoFrame.PixelFormat → QImage.Format
  image : QVideoFrame → QImage
  decoder : ImageView → ReaderOptions → List ZXing.Result

/-- `class Position : public ZXing::Quadrilateral<QPoint>`. -/
abbrev Position := ZXing.Quadrilateral QPoint

/-- `class Result : private ZXing::Result`: the inherited decoder result, the
members `_text`, `_bytes`, `_position`, and `runTime`. -/
structure Result where
  base : ZXing.Result
  _text : String
  _bytes : List Nat
  _position : Position
  runTime : Int
  deriving DecidableEq, Repr

/-- `Result() = default`. -/
def Result.default : Result :=
  { base := ZXing.Result.default
    _text := ""
    _bytes := []
    _position :=
      { topLeft := { x := 0, y := 0 }
        topRight := { x := 0, y := 0 }
        bottomRight := { x := 0, y := 0 }
        bottomLeft := { x := 0, y := 0 } }
    runTime := 0 }

/-- `explicit Result(ZXing::Result&& r)`. -/
def Result.ofZXing (r : ZXing.Result) : Result :=
  let qp := fun (p : ZXing.PointI) => ({ x := p.x, y := p.y } : QPoint)
  { base := r
    _text := r.text
    _bytes := r.bytes
    _position :=
      { topLeft := qp r.position.topLeft
        topRight := qp r.position.topRight
        bottomRight := qp r.position.bottomRight
        bottomLeft := qp r.position.bottomLeft }
    runTime := 0 }

/-- `using ZXing::Result::isValid`. -/
def Result.isValid (r : Result) : Bool := r.base.isValid

/-- The messages the adapter writes with `qWarning()`. -/
inductive Warning where
  /-- "invalid QVideoFrame: could not map memory" -/
  | couldNotMap
  /-- "unsupported QVideoFrame::pixelFormat" -/
  | unsupportedPixelFormat
  /-- "failed to convert QVideoFrame to QImage" -/
  | failedToConvert
  deriving DecidableEq, Repr

/-- What a call of the adapter does besides returning: warnings, a successful
`map` and the `unmap` of the scope guard, and each invocation of the decoder
with the descriptor and options it receives. -/
inductive Effect where
  | warning (w : Warning)
  | map
  | unmap
  | decode (view : ImageView) (opts : ReaderOptions)
  deriving DecidableEq, Repr

/-- The decoder invocations among the effects, in order. -/
def decoderCalls : List Effect → List (ImageView × ReaderOptions)
  | [] => []
  | Effect.decode view opts :: es => (view, opts) :: decoderCalls es
  | _ :: es => decoderCalls es

/-- `QListResults`: every decoder result is wrapped and pushed to the back. -/
def QListResults (zxres : List ZXing.Result) : List Result :=
  zxres.foldl (fun res r => res ++ [Result.ofZXing r]) []

/-- The lambda `ImgFmtFromQImg` of `ReadBarcodes(const QImage&, ...)`. -/
def ImgFmtFromQImg (b : Build) (img : QImage) : ImageFormat :=
  match img.format with
  | QImage.Format.Format_ARGB32 | QImage.Format.Format_RGB32 =>
    if b.littleEndian then ImageFormat.BGRX else ImageFormat.XRGB
  | QImage.Format.Format_RGB888 => ImageFormat.RGB
  | QImage.Format.Format_RGBX8888 | QImage.Format.Format_RGBA8888 => ImageFormat.RGBX
  | QImage.Format.Format_Grayscale8 => ImageFormat.Lum
  | _ => ImageFormat.None

/-- The lambda `exec` of `ReadBarcodes(const QImage&, ...)`. -/
def exec (b : Build) (x : External) (opts : ReaderOptions) (img : QImage) :
    List Result × List Effect :=
  let view : ImageView :=
    { data := img.bits
      width := img.width
      height := img.height
      format := ImgFmtFromQImg b img
      rowStride := img.bytesPerLine
      pixStride := 0 }
  (QListResults (x.decoder view opts), [Effect.decode view opts])

/-- `ReadBarcodes(const QImage& img, const ReaderOptions& opts)`. -/
def ReadBarcodes_QImage (b : Build) (x : External) (img : QImage) (opts : ReaderOptions) :
    List Result × List Effect :=
  if ImgFmtFromQImg b img = ImageFormat.None then
    exec b x opts (x.convertToFormat img QImage.Format.Format_Grayscale8)
  else
    exec b x opts img

/-- `ReadBarcode(const QImage& img, const ReaderOptions& opts)`. -/
def ReadBarcode_QImage (b : Build) (x : External) (img : QImage) (opts : ReaderOptions) :
    Result × List Effect :=
  let res := ReadBarcodes_QImage b x img (opts.setMaxNumberOfSymbols 1)
  (match res.1 with
   | r :: _ => r
   | [] => Result.default,
   res.2)

open QVideoFrame.PixelFormat in
/-- The `switch (frame.pixelFormat())` of `ReadBarcodes(const QVideoFrame&, ...)`:
the values of `fmt`, `pixStride` and `pixOffset` after it, starting from
`ImageFormat::None`, 0 and 0. -/
def pixelFormatSwitch (b : Build) : QVideoFrame.PixelFormat → ImageFormat × Int × Int
  | Format_ARGB32 | Format_ARGB32_Premultiplied | Format_RGB32 =>
    if b.littleEndian then (ImageFormat.BGRX, 0, 0) else (ImageFormat.XRGB, 0, 0)
  | Format_BGRA32 | Format_BGRA32_Premultiplied | Format_BGR32 =>
    if b.littleEndian then (ImageFormat.RGBX, 0, 0) else (ImageFormat.XBGR, 0, 0)
  | Format_RGB24 => (ImageFormat.RGB, 0, 0)
  | Format_BGR24 => (ImageFormat.BGR, 0, 0)
  | Format_YUV444 => (ImageFormat.Lum, 3, 0)
  | Format_AYUV444 | Format_AYUV444_Premultiplied =>
    if b.littleEndian then (ImageFormat.Lum, 4, 3) else (ImageFormat.Lum, 4, 2)
  | Format_YUV420P | Format_NV12 | Format_NV21 | Format_IMC1 | Format_IMC2
  | Format_IMC3 | Format_IMC4 | Format_YV12 => (ImageFormat.Lum, 0, 0)
  | Format_UYVY => (ImageFormat.Lum, 2, 1)
  | Format_YUYV => (ImageFormat.Lum, 2, 0)
  | Format_Y8 => (ImageFormat.Lum, 0, 0)
  | Format_Y16 => (ImageFormat.Lum, 2, 1)
  | Format_ABGR32 =>
    if 13 ≤ b.qtMinor then
      (if b.littleEndian then (ImageFormat.RGBX, 0, 0) else (ImageFormat.XBGR, 0, 0))
    else (ImageFormat.None, 0, 0)
  | Format_YUV422P =>
    if 14 ≤ b.qtMinor then (ImageFormat.Lum, 0, 0) else (ImageFormat.None, 0, 0)
  | _ => (ImageFormat.None, 0, 0)

/-- `ReadBarcodes(const QVideoFrame& frame, const ReaderOptions& opts)`. -/
def ReadBarcodes_QVideoFrame (b : Build) (x : External) (frame : QVideoFrame)
    (opts : ReaderOptions) : List Result × List Effect :=
  let sw := pixelFormatSwitch b frame.pixelFormat
  let fmt := sw.1
  let pixStride := sw.2.1
  let pixOffset := sw.2.2
  if fmt ≠ ImageFormat.None then
    if !frame.isValid || !frame.mapSucceeds then
      ([], [Effect.warning Warning.couldNotMap])
    else
      let view : ImageView :=
        { data := frame.bits + pixOffset
          width := frame.width
          height := frame.height
          format := fmt
          rowStride := frame.bytesPerLine
          pixStride := pixStride }
      (QListResults (x.decoder view opts), [Effect.map, Effect.decode view opts, Effect.unmap])
  else
    if x.imageFormatFromPixelFormat frame.pixelFormat ≠ QImage.Format.Format_Invalid then
      ([], [Effect.warning Warning.unsupportedPixelFormat])
    else
      let qimg := x.image frame
      if qimg.format ≠ QImage.Format.Format_Invalid then
        ReadBarcodes_QImage b x qimg opts
      else
        ([], [Effect.warning Warning.failedToConvert])

/-- `ReadBarcode(const QVideoFrame& frame, const ReaderOptions& opts)`. -/
def ReadBarcode_QVideoFrame (b : Build) (x : External) (frame : QVideoFrame)
    (opts : ReaderOptions) : Result × List Effect :=
  let res := ReadBarcodes_QVideoFrame b x frame (opts.setMaxNumberOfSymbols 1)
  (match res.1 with
   | r :: _ => r
   | [] => Result.default,
   res.2)

/-- The signals of `class BarcodeReader`. -/
inductive Signal where
  | formatsChanged
  | tryRotateChanged
  | tryHarderChanged
  | tryDownscaleChanged
  | newResult (result : Result)
  | foundBarcode (result : Result)
  deriving DecidableEq, Repr

/-- What a method of `BarcodeReader` does besides returning: a signal it
emits, the `qDebug()` line of `setFormats`, or an effect of the adapter call
it makes. -/
inductive ReaderEffect where
  | emitted (s : Signal)
  | debugFormats (formats : Int)
  | adapter (e : Effect)
  deriving DecidableEq, Repr

/-- `class BarcodeReader : public QAbstractVideoFilter, private ReaderOptions`:
its state is the inherited option set. -/
structure BarcodeReader where
  options : ReaderOptions
  deriving DecidableEq, Repr

/-- `BarcodeReader::formats`: the integer stored in the option set's formats. -/
def BarcodeReader.formats (self : BarcodeReader) : Int := self.options.formats

/-- `BarcodeReader::setFormats`. -/
def BarcodeReader.setFormats (self : BarcodeReader) (newVal : Int) :
    BarcodeReader × List ReaderEffect :=
  if self.formats ≠ newVal then
    let self1 : BarcodeReader := { options := self.options.setFormats newVal }
    (self1, [ReaderEffect.emitted Signal.formatsChanged,
             ReaderEffect.debugFormats self1.options.formats])
  else
    (self, [])

/-- `ZQ_PROPERTY(bool, tryRotate, setTryRotate)`: the getter. -/
def BarcodeReader.tryRotate (self : BarcodeReader) : Bool := self.options.tryRotate

/-- `ZQ_PROPERTY(bool, tryRotate, setTryRotate)`: the setter. -/
def BarcodeReader.setTryRotate (self : BarcodeReader) (newVal : Bool) :
    BarcodeReader × List ReaderEffect :=
  if self.tryRotate ≠ newVal then
    ({ options := self.options.setTryRotate newVal },
      [ReaderEffect.emitted Signal.tryRotateChanged])
  else
    (self, [])

/-- `ZQ_PROPERTY(bool, tryHarder, setTryHarder)`: the getter. -/
def BarcodeReader.tryHarder (self : BarcodeReader) : Bool := self.options.tryHarder

/-- `ZQ_PROPERTY(bool, tryHarder, setTryHarder)`: the setter. -/
def BarcodeReader.setTryHarder (self : BarcodeReader) (newVal : Bool) :
    BarcodeReader × List ReaderEffect :=
  if self.tryHarder ≠ newVal then
    ({ options := self.options.setTryHarder newVal },
      [ReaderEffect.emitted Signal.tryHarderChanged])
  else
    (self, [])

/-- `ZQ_PROPERTY(bool, tryDownscale, setTryDownscale)`: the getter. -/
def BarcodeReader.tryDownscale (self : BarcodeReader) : Bool := self.options.tryDownscale

/-- `ZQ_PROPERTY(bool, tryDownscale, setTryDownscale)`: the setter. -/
def BarcodeReader.setTryDownscale (self : BarcodeReader) (newVal : Bool) :
    BarcodeReader × List ReaderEffect :=
  if self.tryDownscale ≠ newVal then
    ({ options := self.options.setTryDownscale newVal },
      [ReaderEffect.emitted Signal.tryDownscaleChanged])
  else
    (self, [])

/-- The conversion of the `qint64` that `QElapsedTimer::elapsed` returns to
the `int` member `runTime`: the value modulo 2^32, as a signed 32-bit number. -/
def toInt (v : Int) : Int := (v + 2 ^ 31) % 2 ^ 32 - 2 ^ 31

/-- `BarcodeReader::process`; `elapsed` is the value of `t.elapsed()`. -/
def BarcodeReader.process (b : Build) (x : External) (self : BarcodeReader)
    (image : QVideoFrame) (elapsed : Int) : BarcodeReader × Result × List ReaderEffect :=
  let r := ReadBarcode_QVideoFrame b x image self.options
  let res : Result := { r.1 with runTime := toInt elapsed }
  (self, res,
    r.2.map ReaderEffect.adapter
      ++ [ReaderEffect.emitted (Signal.newResult res)]
      ++ (if res.isValid then [ReaderEffect.emitted (Signal.foundBarcode res)] else []))

/-- The signals among the effects of a reader method, in order. -/
def signals : List ReaderEffect → List Signal
  | [] => []
  | ReaderEffect.emitted s :: es => s :: signals es
  | _ :: es => signals es

end ZXingQt

/-! ## The Qt 6 branch of the video-frame path -/

namespace ZXingQt.Qt6

open ZXing (ImageFormat ImageView ReaderOptions)

/-- `QVideoFrameFormat::PixelFormat` of Qt 6; `Other` stands for an enumerator
this list does not name. -/
inductive PixelFormat where
  | Format_Invalid
  | Format_ARGB8888
  | Format_ARGB8888_Premultiplied
  | Format_XRGB8888
  | Format_BGRA8888
  | Format_BGRA8888_Premultiplied
  | Format_BGRX8888
  | Format_ABGR8888
  | Format_XBGR8888
  | Format_RGBA8888
  | Format_RGBX8888
  | Format_AYUV
  | Format_AYUV_Premultiplied
  | Format_YUV420P
  | Format_YUV422P
  | Format_YV12
  | Format_UYVY
  | Format_YUYV
  | Format_NV12
  | Format_NV21
  | Format_IMC1
  | Format_IMC2
  | Format_IMC3
  | Format_IMC4
  | Format_Y8
  | Format_Y16
  | Format_P010
  | Format_P016
  | Format_SamplerExternalOES
  | Format_Jpeg
  | Format_SamplerRect
  | Format_YUV420P10
  | Other (value : Nat)
  deriving DecidableEq, Repr

/-- What the adapter reads of a Qt 6 `QVideoFrame`; `bits` and `bytesPerLine`
are those of plane 0. -/
structure QVideoFrame where
  pixelFormat : PixelFormat
  isValid : Bool
  mapSucceeds : Bool
  bits : Int
  width : Int
  height : Int
  bytesPerLine : Int
  deriving DecidableEq, Repr

open PixelFormat in
/-- The `switch (frame.pixelFormat())` as a Qt 6 build compiles it. -/
def pixelFormatSwitch (littleEndian : Bool) : PixelFormat → ImageFormat × Int × Int
  | Format_ARGB8888 | Format_ARGB8888_Premultiplied | Format_RGBX8888 =>
    if littleEndian then (ImageFormat.BGRX, 0, 0) else (ImageFormat.XRGB, 0, 0)
  | Format_BGRA8888 | Format_BGRA8888_Premultiplied | Format_BGRX8888 =>
    if littleEndian then (ImageFormat.RGBX, 0, 0) else (ImageFormat.XBGR, 0, 0)
  | Format_P010 | Format_P016 => (ImageFormat.Lum, 1, 0)
  | Format_AYUV | Format_AYUV_Premultiplied =>
    if littleEndian then (ImageFormat.Lum, 4, 3) else (ImageFormat.Lum, 4, 2)
  | Format_YUV420P | Format_NV12 | Format_NV21 | Format_IMC1 | Format_IMC2
  | Format_IMC3 | Format_IMC4 | Format_YV12 => (ImageFormat.Lum, 0, 0)
  | Format_UYVY => (ImageFormat.Lum, 2, 1)
  | Format_YUYV => (ImageFormat.Lum, 2, 0)
  | Format_Y8 => (ImageFormat.Lum, 0, 0)
  | Format_Y16 => (ImageFormat.Lum, 2, 1)
  | Format_ABGR8888 =>
    if littleEndian then (ImageFormat.RGBX, 0, 0) else (ImageFormat.XBGR, 0, 0)
  | Format_YUV422P => (ImageFormat.Lum, 0, 0)
  | _ => (ImageFormat.None, 0, 0)

/-- `ReadBarcodes(const QVideoFrame&, ...)` as a Qt 6 build compiles it;
`toImage` is `QVideoFrame::toImage`. -/
def ReadBarcodes_QVideoFrame (b : Build) (x : External) (toImage : QVideoFrame → QImage)
    (frame : QVideoFrame) (opts : ReaderOptions) : List Result × List Effect :=
  let sw := pixelFormatSwitch b.littleEndian frame.pixelFormat
  let fmt := sw.1
  let pixStride := sw.2.1
  let pixOffset := sw.2.2
  if fmt ≠ ImageFormat.None then
    if !frame.isValid || !frame.mapSucceeds then
      ([], [Effect.warning Warning.couldNotMap])
    else
      let view : ImageView :=
        { data := frame.bits + pixOffset
          width := frame.width
          height := frame.height
          format := fmt
          rowStride := frame.bytesPerLine
          pixStride := pixStride }
      (QListResults (x.decoder view opts), [Effect.map, Effect.decode view opts, Effect.unmap])
  else
    let qimg := toImage frame
    if qimg.format ≠ QImage.Format.Format_Invalid then
      ReadBarcodes_QImage b x qimg opts
    else
      ([], [Effect.warning Warning.failedToConvert])

end ZXingQt.Qt6

/-! ## Statements of the specification and sample inputs -/

namespace ZXingQt

open ZXing (ImageFormat ImageView ReaderOptions)

/-- The image the still-image path hands to the decoder according to the
specification: the image itself when its format is in the dispatch table,
otherwise its conversion to 8-bit grayscale. -/
def imagePassed (b : Build) (x : External) (img : QImage) : QImage :=
  if ImgFmtFromQImg b img = ImageFormat.None then
    x.convertToFormat img QImage.Format.Format_Grayscale8
  else
    img

/-- The descriptor of a still image according to the specification: its pixel
data, width, height, table format and bytes per line (no pixel stride given). -/
def specImageView (b : Build) (img : QImage) : ImageView :=
  { data := img.bits
    width := img.width
    height := img.height
    format := ImgFmtFromQImg b img
    rowStride := img.bytesPerLine
    pixStride := 0 }

open QVideoFrame.PixelFormat in
/-- The video dispatch table as the specification words it for a Qt 5,
little-endian build: image format, pixel stride, pixel offset. -/
def specVideoTable : QVideoFrame.PixelFormat → ImageFormat × Int × Int
  | Format_ARGB32 => (ImageFormat.BGRX, 0, 0)
  | Format_ARGB32_Premultiplied => (ImageFormat.BGRX, 0, 0)
  | Format_RGB32 => (ImageFormat.BGRX, 0, 0)
  | Format_BGRA32 => (ImageFormat.RGBX, 0, 0)
  | Format_BGRA32_Premultiplied => (ImageFormat.RGBX, 0, 0)
  | Format_BGR32 => (ImageFormat.RGBX, 0, 0)
  | Format_ABGR32 => (ImageFormat.RGBX, 0, 0)
  | Format_RGB24 => (ImageFormat.RGB, 0, 0)
  | Format_BGR24 => (ImageFormat.BGR, 0, 0)
  | Format_YUV444 => (ImageFormat.Lum, 3, 0)
  | Format_AYUV444 => (ImageFormat.Lum, 4, 3)
  | Format_AYUV444_Premultiplied => (ImageFormat.Lum, 4, 3)
  | Format_YUV420P => (ImageFormat.Lum, 0, 0)
  | Format_YUV422P => (ImageFormat.Lum, 0, 0)
  | Format_NV12 => (ImageFormat.Lum, 0, 0)
  | Format_NV21 => (ImageFormat.Lum, 0, 0)
  | Format_IMC1 => (ImageFormat.Lum, 0, 0)
  | Format_IMC2 => (ImageFormat.Lum, 0, 0)
  | Format_IMC3 => (ImageFormat.Lum, 0, 0)
  | Format_IMC4 => (ImageFormat.Lum, 0, 0)
  | Format_YV12 => (ImageFormat.Lum, 0, 0)
  | Format_Y8 => (ImageFormat.Lum, 0, 0)
  | Format_UYVY => (ImageFormat.Lum, 2, 1)
  | Format_YUYV => (ImageFormat.Lum, 2, 0)
  | Format_Y16 => (ImageFormat.Lum, 2, 1)
  | _ => (ImageFormat.None, 0, 0)

/-- The descriptor the video path builds for a mapped frame according to the
specification: the first plane advanced by the pixel offset, the frame's
size and bytes per line, the selected format and pixel stride. -/
def specVideoView (frame : QVideoFrame) (t : ImageFormat × Int × Int) : ImageView :=
  { data := frame.bits + t.2.2
    width := frame.width
    height := frame.height
    format := t.1
    rowStride := frame.bytesPerLine
    pixStride := t.2.1 }

namespace Sample

/-- A Qt 5.15 build on a little-endian machine. -/
def build : Build := { littleEndian := true, qtMinor := 15 }

/-- A decoded QR code as the decoder might report it. -/
def zxResult : ZXing.Result :=
  { format := 8192
    symbologyCode := 81
    hasError := false
    text := "droidian"
    bytes := [100, 114, 111, 105, 100, 105, 97, 110]
    position :=
      { topLeft := { x := 10, y := 10 }
        topRight := { x := 50, y := 10 }
        bottomRight := { x := 50, y := 50 }
        bottomLeft := { x := 10, y := 50 } }
    contentType := 0 }

/-- `QVideoFrame::imageFormatFromPixelFormat` of Qt 5.15 on the formats that
have a `QImage` counterpart; every other format gives `Format_Invalid`. -/
def imageFormatFromPixelFormat : QVideoFrame.PixelFormat → QImage.Format
  | QVideoFrame.PixelFormat.Format_ARGB32 => QImage.Format.Format_ARGB32
  | QVideoFrame.PixelFormat.Format_ARGB32_Premultiplied =>
    QImage.Format.Format_ARGB32_Premultiplied
  | QVideoFrame.PixelFormat.Format_RGB32 => QImage.Format.Format_RGB32
  | QVideoFrame.PixelFormat.Format_RGB24 => QImage.Format.Format_RGB888
  | QVideoFrame.PixelFormat.Format_RGB565 => QImage.Format.Format_RGB16
  | QVideoFrame.PixelFormat.Format_RGB555 => QImage.Format.Format_RGB555
  | QVideoFrame.PixelFormat.Format_ARGB8565_Premultiplied =>
    QImage.Format.Format_ARGB8565_Premultiplied
  | _ => QImage.Format.Format_Invalid

/-- Library routines to run the adapter on: a conversion that relabels a
non-null image, a frame-to-image routine that wraps the mapped plane of a
frame whose pixel format has a `QImage` counterpart, and a decoder that finds
one symbol in any image it is given. -/
def external : External :=
  { convertToFormat := fun img f =>
      if img.format = QImage.Format.Format_Invalid then img
      else { img with format := f, bytesPerLine := img.width }
    imageFormatFromPixelFormat := imageFormatFromPixelFormat
    image := fun frame =>
      { format := imageFormatFromPixelFormat frame.pixelFormat
        bits := frame.bits
        width := frame.width
        height := frame.height
        bytesPerLine := frame.bytesPerLine }
    decoder := fun _ _ => [zxResult] }

/-- An 8-bit indexed-colour still image, a format outside the still-image table. -/
def indexedImage : QImage :=
  { format := QImage.Format.Format_Indexed8
    bits := 4096
    width := 64
    height := 48
    bytesPerLine := 64 }

/-- A mapped 640x480 UYVY camera frame. -/
def uyvyFrame : QVideoFrame :=
  { pixelFormat := QVideoFrame.PixelFormat.Format_UYVY
    isValid := true
    mapSucceeds := true
    bits := 65536
    width := 640
    height := 480
    bytesPerLine := 1280 }

/-- A mapped 640x480 RGB565 camera frame: its pixel format is not in the video
dispatch table and has the `QImage` counterpart `Format_RGB16`. -/
def rgb565Frame : QVideoFrame :=
  { pixelFormat := QVideoFrame.PixelFormat.Format_RGB565
    isValid := true
    mapSucceeds := true
    bits := 65536
    width := 640
    height := 480
    bytesPerLine := 1280 }

end Sample

end ZXingQt

/-! ## The enumeration `ZXingQt::BarcodeFormat` -/

namespace ZXingQt.BarcodeFormat

/-- `None = 0`: used as a return value if no valid barcode has been detected. -/
def None : Nat := 0
/-- `Aztec = (1 << 0)` -/
def Aztec : Nat := 1 <<< 0
/-- `Codabar = (1 << 1)` -/
def Codabar : Nat := 1 <<< 1
/-- `Code39 = (1 << 2)` -/
def Code39 : Nat := 1 <<< 2
/-- `Code93 = (1 << 3)` -/
def Code93 : Nat := 1 <<< 3
/-- `Code128 = (1 << 4)` -/
def Code128 : Nat := 1 <<< 4
/-- `DataBar = (1 << 5)` -/
def DataBar : Nat := 1 <<< 5
/-- `DataBarExpanded = (1 << 6)` -/
def DataBarExpanded : Nat := 1 <<< 6
/-- `DataMatrix = (1 << 7)` -/
def DataMatrix : Nat := 1 <<< 7
/-- `EAN8 = (1 << 8)` -/
def EAN8 : Nat := 1 <<< 8
/-- `EAN13 = (1 << 9)` -/
def EAN13 : Nat := 1 <<< 9
/-- `ITF = (1 << 10)` -/
def ITF : Nat := 1 <<< 10
/-- `MaxiCode = (1 << 11)` -/
def MaxiCode : Nat := 1 <<< 11
/-- `PDF417 = (1 << 12)` -/
def PDF417 : Nat := 1 <<< 12
/-- `QRCode = (1 << 13)` -/
def QRCode : Nat := 1 <<< 13
/-- `UPCA = (1 << 14)` -/
def UPCA : Nat := 1 <<< 14
/-- `UPCE = (1 << 15)` -/
def UPCE : Nat := 1 <<< 15
/-- `MicroQRCode = (1 << 16)` -/
def MicroQRCode : Nat := 1 <<< 16
/-- `RMQRCode = (1 << 17)` -/
def RMQRCode : Nat := 1 <<< 17

/-- The enumerator `LinearCodes`, with the operands in the order of the source. -/
def LinearCodes : Nat :=
  Codabar ||| Code39 ||| Code93 ||| Code128 ||| EAN8 ||| EAN13 ||| ITF ||| DataBar
    ||| DataBarExpanded ||| UPCA ||| UPCE

/-- The enumerator `MatrixCodes`, with the operands in the order of the source. -/
def MatrixCodes : Nat :=
  Aztec ||| DataMatrix ||| MaxiCode ||| PDF417 ||| QRCode ||| MicroQRCode ||| RMQRCode

/-- The named single formats, `Aztec` through `RMQRCode`, in declaration order. -/
def singleFormats : List Nat :=
  [Aztec, Codabar, Code39, Code93, Code128, DataBar, DataBarExpanded, DataMatrix, EAN8,
   EAN13, ITF, MaxiCode, PDF417, QRCode, UPCA, UPCE, MicroQRCode, RMQRCode]

/-- A single format belongs to a mask when the mask has its bit. -/
def belongsTo (format mask : Nat) : Bool := format &&& mask != 0

end ZXingQt.BarcodeFormat

/-! ## Properties of the application controller -/

section AppControllerProperties

open AppController

theorem check_gsettings_background_state (self : AppController) (settings : Option Bool) :
    (check_gsettings_background self settings).1 = self := by
  unfold check_gsettings_background
  cases settings with
  | none => rfl
  | some value => by_cases h : (!value && self.m_hidden_window) = true <;> simp [h]

theorem check_gsettings_background_quit (self : AppController) (settings : Option Bool) :
    Effect.quitRequested ∈ (check_gsettings_background self settings).2 ↔
      (settings = some false ∧ self.m_hidden_window = true) := by
  unfold check_gsettings_background
  cases settings with
  | none => simp
  | some value => cases value <;> cases h : self.m_hidden_window <;> simp [h]

theorem step_hidden (self : AppController) (e : Event) :
    (step self e).1.m_hidden_window = hiddenStep self.m_hidden_window e := by
  cases e with
  | initializeApp => rfl
  | objectCreated obj sameUrl =>
    simp only [step, objectCreated, hiddenStep]
    split
    · split <;> rfl
    · rfl
  | hideWindow settings =>
    simp only [step, hideWindow, hiddenStep]
    split
    · rw [check_gsettings_background_state]
    · rfl
  | showWindow cameraFound gpsOn =>
    simp only [step, showWindow, hiddenStep, loadCamera, restartGpsIfNeeded]
    split
    · split <;> split <;> rfl
    · rfl
  | gsettingsChanged key settings =>
    simp only [step, on_gsettings_changed, hiddenStep]
    split
    · rw [check_gsettings_background_state]
    · rfl

theorem run_hidden (self : AppController) (es : List Event) :
    (run self es).1.m_hidden_window = es.foldl hiddenStep self.m_hidden_window := by
  induction es generalizing self with
  | nil => rfl
  | cons e es ih =>
    simp only [run, List.foldl_cons]
    rw [ih, step_hidden]

theorem run_construct_hidden (settingsCreated : Bool) (es : List Event) :
    (run (construct settingsCreated).1 es).1.m_hidden_window = hiddenAfter es := by
  rw [run_hidden]
  cases settingsCreated <;> rfl

theorem hiddenAfter_snoc (es : List Event) (e : Event) :
    hiddenAfter (es ++ [e]) = hiddenStep (hiddenAfter es) e := by
  simp [hiddenAfter, List.foldl_append]

theorem foldl_hiddenStep_no_hide (mid : List Event) (h : ∀ e ∈ mid, e.isHide = false) :
    mid.foldl hiddenStep false = false := by
  induction mid with
  | nil => rfl
  | cons e es ih =>
    have he : e.isHide = false := h e (List.mem_cons_self e es)
    have hes : ∀ e1 ∈ es, e1.isHide = false := fun e1 h1 => h e1 (List.mem_cons_of_mem e h1)
    rw [List.foldl_cons]
    cases e with
    | hideWindow s => simp [Event.isHide] at he
    | initializeApp => exact ih hes
    | objectCreated o u => exact ih hes
    | showWindow a b => exact ih hes
    | gsettingsChanged k s => exact ih hes

theorem hiddenAfter_since_show (pre mid : List Event) (cameraFound gpsOn : Bool)
    (h : ∀ e ∈ mid, e.isHide = false) :
    hiddenAfter (pre ++ Event.showWindow cameraFound gpsOn :: mid) = false := by
  simp only [hiddenAfter, List.foldl_append, List.foldl_cons, hiddenStep]
  exact foldl_hiddenStep_no_hide mid h

theorem step_quit (self : AppController) (e : Event)
    (hq : Effect.quitRequested ∈ (step self e).2) :
    (step self e).1.m_hidden_window = true ∧ e.settingsRead = some false ∧
      ((∃ settings, e = Event.hideWindow settings) ∨
        (∃ settings, e = Event.gsettingsChanged "camera-background" settings ∧
          self.m_hidden_window = true)) := by
  cases e with
  | initializeApp => simp [step, initializeApp] at hq
  | objectCreated obj sameUrl =>
    simp only [step, objectCreated] at hq
    split at hq
    · split at hq <;> split at hq <;> simp at hq
    · simp at hq
  | showWindow cameraFound gpsOn =>
    simp only [step, showWindow, loadCamera, restartGpsIfNeeded] at hq
    split at hq
    · split at hq <;> split at hq <;> simp at hq
    · simp at hq
  | hideWindow settings =>
    simp only [step, hideWindow] at hq ⊢
    split at hq
    · rename_i hw
      simp only [List.mem_append, List.mem_cons, List.mem_singleton, List.not_mem_nil,
        or_false, false_or, reduceCtorEq] at hq
      have h := (check_gsettings_background_quit _ settings).1 hq
      refine ⟨?_, h.1, Or.inl ⟨settings, rfl⟩⟩
      simp only [hw, if_true, check_gsettings_background_state]
    · simp at hq
  | gsettingsChanged key settings =>
    simp only [step, on_gsettings_changed] at hq ⊢
    split at hq
    · rename_i hk
      have h := (check_gsettings_background_quit _ settings).1 hq
      refine ⟨?_, h.1, Or.inr ⟨settings, by rw [hk], h.2⟩⟩
      simp only [hk, if_true, check_gsettings_background_state]
      exact h.2
    · simp at hq

/-- C1: `check_gsettings_background` requests the application quit exactly when
the `camera-background` setting reads false and `m_hidden_window` is true (the
request is then its only action); for every other setting value and flag it
does nothing at all; and in no case does it change the controller. -/
theorem check_gsettings_background_spec (self : AppController) (settings : Option Bool) :
    (Effect.quitRequested ∈ (check_gsettings_background self settings).2 ↔
      (settings = some false ∧ self.m_hidden_window = true)) ∧
    ((settings = some false ∧ self.m_hidden_window = true) →
      (check_gsettings_background self settings).2 = [Effect.quitRequested]) ∧
    (∀ value : Bool, settings = some value →
      ¬ (value = false ∧ self.m_hidden_window = true) →
      check_gsettings_background self settings = (self, [])) ∧
    (check_gsettings_background self settings).1 = self := by
  refine ⟨check_gsettings_background_quit self settings, ?_, ?_,
    check_gsettings_background_state self settings⟩
  · rintro ⟨hs, hh⟩
    simp [check_gsettings_background, hs, hh]
  · intro value hs hn
    subst hs
    cases value <;> cases hh : self.m_hidden_window <;>
      simp [check_gsettings_background, hh] at hn ⊢

/-- C2: after any sequence of events on a freshly constructed controller the
hidden flag is false at the start, set only by `hideWindow` and cleared only by
`showWindow`; an event that requests a quit is handled with the flag true and
the `camera-background` setting read as false; a settings change that arrives
while the flag is false, in particular anywhere between a `showWindow` and the
next `hideWindow`, requests no quit; and a settings change for any other key
does nothing. -/
theorem quit_only_while_hidden (settingsCreated : Bool) (es : List Event) (e : Event) :
    (construct settingsCreated).1.m_hidden_window = false ∧
    (run (construct settingsCreated).1 es).1.m_hidden_window = hiddenAfter es ∧
    ((run (construct settingsCreated).1 es).1.m_hidden_window = false →
      (step (run (construct settingsCreated).1 es).1 e).1.m_hidden_window = true →
      ∃ settings, e = Event.hideWindow settings) ∧
    ((run (construct settingsCreated).1 es).1.m_hidden_window = true →
      (step (run (construct settingsCreated).1 es).1 e).1.m_hidden_window = false →
      ∃ cameraFound gpsOn, e = Event.showWindow cameraFound gpsOn) ∧
    (Effect.quitRequested ∈ (step (run (construct settingsCreated).1 es).1 e).2 →
      (step (run (construct settingsCreated).1 es).1 e).1.m_hidden_window = true ∧
      hiddenAfter (es ++ [e]) = true ∧
      e.settingsRead = some false) ∧
    (∀ key settings, e = Event.gsettingsChanged key settings →
      hiddenAfter es = false →
      Effect.quitRequested ∉ (step (run (construct settingsCreated).1 es).1 e).2) ∧
    (∀ pre mid cameraFound gpsOn key settings,
      es = pre ++ Event.showWindow cameraFound gpsOn :: mid →
      (∀ m ∈ mid, m.isHide = false) →
      e = Event.gsettingsChanged key settings →
      Effect.quitRequested ∉ (step (run (construct settingsCreated).1 es).1 e).2) ∧
    (∀ key settings, e = Event.gsettingsChanged key settings →
      key ≠ "camera-background" →
      step (run (construct settingsCreated).1 es).1 e =
        ((run (construct settingsCreated).1 es).1, [])) := by
  have hrun := run_construct_hidden settingsCreated es
  have hstep := step_hidden (run (construct settingsCreated).1 es).1 e
  have hchanged : ∀ key settings, e = Event.gsettingsChanged key settings →
      hiddenAfter es = false →
      Effect.quitRequested ∉ (step (run (construct settingsCreated).1 es).1 e).2 := by
    intro key settings he hh hq
    have h := step_quit _ e hq
    rw [hstep, hrun, hh, he] at h
    simp [hiddenStep] at h
  refine ⟨?_, hrun, ?_, ?_, ?_, hchanged, ?_, ?_⟩
  · cases settingsCreated <;> rfl
  · intro h0 h1
    rw [hstep, h0] at h1
    cases e with
    | hideWindow settings => exact ⟨settings, rfl⟩
    | initializeApp => simp [hiddenStep] at h1
    | objectCreated o u => simp [hiddenStep] at h1
    | showWindow a b => simp [hiddenStep] at h1
    | gsettingsChanged k s => simp [hiddenStep] at h1
  · intro h0 h1
    rw [hstep, h0] at h1
    cases e with
    | showWindow a b => exact ⟨a, b, rfl⟩
    | initializeApp => simp [hiddenStep] at h1
    | objectCreated o u => simp [hiddenStep] at h1
    | hideWindow s => simp [hiddenStep] at h1
    | gsettingsChanged k s => simp [hiddenStep] at h1
  · intro hq
    have h := step_quit _ e hq
    refine ⟨h.1, ?_, h.2.1⟩
    rw [hiddenAfter_snoc, ← hrun, ← hstep]
    exact h.1
  · intro pre mid cameraFound gpsOn key settings hes hmid he
    exact hchanged key settings he (by rw [hes]; exact hiddenAfter_since_show pre mid _ _ hmid)
  · intro key settings he hk
    subst he
    simp [step, on_gsettings_changed, hk]

end AppControllerProperties

/-! ## Properties of the barcode adapter -/

section AdapterProperties

open ZXing (ImageFormat ImageView ReaderOptions)
open ZXingQt

theorem QListResults_eq_map (zxres : List ZXing.Result) :
    QListResults zxres = zxres.map Result.ofZXing := by
  have h : ∀ (acc : List Result) (l : List ZXing.Result),
      l.foldl (fun res r => res ++ [Result.ofZXing r]) acc = acc ++ l.map Result.ofZXing := by
    intro acc l
    induction l generalizing acc with
    | nil => simp
    | cons a l ih => simp [ih]
  simpa [QListResults] using h [] zxres

/-- C3: the still-image format dispatch sends `Format_ARGB32` and `Format_RGB32`
to BGRX on a little-endian build and to XRGB on a big-endian one,
`Format_RGB888` to RGB, `Format_RGBX8888` and `Format_RGBA8888` to RGBX,
`Format_Grayscale8` to Lum, and every other `QImage` format to None. -/
theorem ImgFmtFromQImg_table (b : Build) (img : QImage) :
    ((img.format = QImage.Format.Format_ARGB32 ∨ img.format = QImage.Format.Format_RGB32) →
      (b.littleEndian = true → ImgFmtFromQImg b img = ImageFormat.BGRX) ∧
      (b.littleEndian = false → ImgFmtFromQImg b img = ImageFormat.XRGB)) ∧
    (img.format = QImage.Format.Format_RGB888 → ImgFmtFromQImg b img = ImageFormat.RGB) ∧
    ((img.format = QImage.Format.Format_RGBX8888 ∨
        img.format = QImage.Format.Format_RGBA8888) →
      ImgFmtFromQImg b img = ImageFormat.RGBX) ∧
    (img.format = QImage.Format.Format_Grayscale8 → ImgFmtFromQImg b img = ImageFormat.Lum) ∧
    (img.format ∉ [QImage.Format.Format_ARGB32, QImage.Format.Format_RGB32,
        QImage.Format.Format_RGB888, QImage.Format.Format_RGBX8888,
        QImage.Format.Format_RGBA8888, QImage.Format.Format_Grayscale8] →
      ImgFmtFromQImg b img = ImageFormat.None) := by
  obtain ⟨format, bits, width, height, bytesPerLine⟩ := img
  obtain ⟨littleEndian, qtMinor⟩ := b
  cases format <;> cases littleEndian <;> simp [ImgFmtFromQImg]

/-- C4: given that the grayscale conversion yields a `Format_Grayscale8` image,
`ReadBarcodes(QImage)` invokes the decoder exactly once (and does nothing
else), with the caller's options and the descriptor of the image actually
passed: the image itself, with its table format, when that format is not None,
and otherwise the converted image with format Lum; the descriptor's format is
never None, and the returned list wraps what that one invocation returned. -/
theorem ReadBarcodes_QImage_single_call (b : Build) (x : External) (img : QImage)
    (opts : ReaderOptions)
    (hconv : (x.convertToFormat img QImage.Format.Format_Grayscale8).format =
      QImage.Format.Format_Grayscale8) :
    (ReadBarcodes_QImage b x img opts).2 =
      [Effect.decode (specImageView b (imagePassed b x img)) opts] ∧
    decoderCalls (ReadBarcodes_QImage b x img opts).2 =
      [(specImageView b (imagePassed b x img), opts)] ∧
    (specImageView b (imagePassed b x img)).format ≠ ImageFormat.None ∧
    (ImgFmtFromQImg b img ≠ ImageFormat.None →
      imagePassed b x img = img ∧
      (specImageView b (imagePassed b x img)).format = ImgFmtFromQImg b img) ∧
    (ImgFmtFromQImg b img = ImageFormat.None →
      imagePassed b x img = x.convertToFormat img QImage.Format.Format_Grayscale8 ∧
      (specImageView b (imagePassed b x img)).format = ImageFormat.Lum) ∧
    (specImageView b (imagePassed b x img)).data = (imagePassed b x img).bits ∧
    (specImageView b (imagePassed b x img)).width = (imagePassed b x img).width ∧
    (specImageView b (imagePassed b x img)).height = (imagePassed b x img).height ∧
    (specImageView b (imagePassed b x img)).rowStride = (imagePassed b x img).bytesPerLine ∧
    (ReadBarcodes_QImage b x img opts).1 =
      QListResults (x.decoder (specImageView b (imagePassed b x img)) opts) := by
  have hgray : ImgFmtFromQImg b (x.convertToFormat img QImage.Format.Format_Grayscale8) =
      ImageFormat.Lum := by
    simp [ImgFmtFromQImg, hconv]
  by_cases hnone : ImgFmtFromQImg b img = ImageFormat.None
  · have hp : imagePassed b x img = x.convertToFormat img QImage.Format.Format_Grayscale8 := by
      simp [imagePassed, hnone]
    simp [ReadBarcodes_QImage, exec, hnone, hp, specImageView, hgray, decoderCalls]
  · have hp : imagePassed b x img = img := by
      simp [imagePassed, hnone]
    simp [ReadBarcodes_QImage, exec, hnone, hp, specImageView, decoderCalls]

/-- The fallback of C4 run on an indexed-colour image: one decoder call, on
the converted image, with format Lum. -/
theorem ReadBarcodes_QImage_single_call_witness :
    (Sample.external.convertToFormat Sample.indexedImage
        QImage.Format.Format_Grayscale8).format = QImage.Format.Format_Grayscale8 ∧
    decoderCalls
        (ReadBarcodes_QImage Sample.build Sample.external Sample.indexedImage
          ReaderOptions.default).2 =
      [(specImageView Sample.build
          (imagePassed Sample.build Sample.external Sample.indexedImage),
        ReaderOptions.default)] ∧
    (specImageView Sample.build
        (imagePassed Sample.build Sample.external Sample.indexedImage)).format =
      ImageFormat.Lum :=
  ⟨by decide,
   (ReadBarcodes_QImage_single_call Sample.build Sample.external Sample.indexedImage
      ReaderOptions.default (by decide)).2.1,
   by decide⟩

theorem pixelFormatSwitch_table (b : Build) (pf : QVideoFrame.PixelFormat)
    (hle : b.littleEndian = true) (hqt : pf.since ≤ b.qtMinor) :
    pixelFormatSwitch b pf = specVideoTable pf := by
  obtain ⟨littleEndian, qtMinor⟩ := b
  simp only at hle
  subst hle
  cases pf <;> simp [pixelFormatSwitch, specVideoTable] <;>
    simp [QVideoFrame.PixelFormat.since] at hqt <;> omega

/-- C5: on a little-endian Qt 5 build that has the frame's pixel format, the
switch selects the triple of the specification's table; and when the selected
format is not None and the frame is valid and can be mapped, the decoder is
invoked exactly once, with the caller's options and the descriptor made of the
first plane advanced by the pixel offset, the frame's width, height and bytes
per line, and the selected format and pixel stride, and its results are
returned wrapped. -/
theorem ReadBarcodes_QVideoFrame_dispatch (b : Build) (x : External) (frame : QVideoFrame)
    (opts : ReaderOptions)
    (hle : b.littleEndian = true) (hqt : frame.pixelFormat.since ≤ b.qtMinor) :
    pixelFormatSwitch b frame.pixelFormat = specVideoTable frame.pixelFormat ∧
    ((specVideoTable frame.pixelFormat).1 ≠ ImageFormat.None →
      frame.isValid = true → frame.mapSucceeds = true →
      decoderCalls (ReadBarcodes_QVideoFrame b x frame opts).2 =
        [(specVideoView frame (specVideoTable frame.pixelFormat), opts)] ∧
      (ReadBarcodes_QVideoFrame b x frame opts).2 =
        [Effect.map,
         Effect.decode (specVideoView frame (specVideoTable frame.pixelFormat)) opts,
         Effect.unmap] ∧
      (ReadBarcodes_QVideoFrame b x frame opts).1 =
        QListResults
          (x.decoder (specVideoView frame (specVideoTable frame.pixelFormat)) opts)) := by
  have ht := pixelFormatSwitch_table b frame.pixelFormat hle hqt
  refine ⟨ht, ?_⟩
  intro hfmt hvalid hmap
  simp [ReadBarcodes_QVideoFrame, ht, hfmt, hvalid, hmap, specVideoView, decoderCalls]

/-- C5 run on a mapped UYVY frame: the luminance byte is sampled at offset 1
with pixel stride 2. -/
theorem ReadBarcodes_QVideoFrame_dispatch_witness :
    Sample.build.littleEndian = true ∧
    Sample.uyvyFrame.pixelFormat.since ≤ Sample.build.qtMinor ∧
    pixelFormatSwitch Sample.build Sample.uyvyFrame.pixelFormat = (ImageFormat.Lum, 2, 1) ∧
    decoderCalls
        (ReadBarcodes_QVideoFrame Sample.build Sample.external Sample.uyvyFrame
          ReaderOptions.default).2 =
      [(specVideoView Sample.uyvyFrame (specVideoTable Sample.uyvyFrame.pixelFormat),
        ReaderOptions.default)] :=
  ⟨by decide, by decide,
   (ReadBarcodes_QVideoFrame_dispatch Sample.build Sample.external Sample.uyvyFrame
      ReaderOptions.default (by decide) (by decide)).1,
   ((ReadBarcodes_QVideoFrame_dispatch Sample.build Sample.external Sample.uyvyFrame
      ReaderOptions.default (by decide) (by decide)).2 (by decide) (by decide)
      (by decide)).1⟩

theorem ReadBarcodes_QImage_results (b : Build) (x : External) (img : QImage)
    (opts : ReaderOptions) :
    ∃ view, decoderCalls (ReadBarcodes_QImage b x img opts).2 = [(view, opts)] ∧
      (ReadBarcodes_QImage b x img opts).1 = QListResults (x.decoder view opts) := by
  unfold ReadBarcodes_QImage
  split
  · exact ⟨_, rfl, rfl⟩
  · exact ⟨_, rfl, rfl⟩

theorem ReadBarcodes_QVideoFrame_results (b : Build) (x : External) (frame : QVideoFrame)
    (opts : ReaderOptions) :
    (decoderCalls (ReadBarcodes_QVideoFrame b x frame opts).2 = [] ∧
      (ReadBarcodes_QVideoFrame b x frame opts).1 = []) ∨
    ∃ view, decoderCalls (ReadBarcodes_QVideoFrame b x frame opts).2 = [(view, opts)] ∧
      (ReadBarcodes_QVideoFrame b x frame opts).1 = QListResults (x.decoder view opts) := by
  unfold ReadBarcodes_QVideoFrame
  simp only
  split
  · split
    · exact Or.inl ⟨rfl, rfl⟩
    · exact Or.inr ⟨_, rfl, rfl⟩
  · split
    · exact Or.inl ⟨rfl, rfl⟩
    · split
      · exact Or.inr (ReadBarcodes_QImage_results b x _ opts)
      · exact Or.inl ⟨rfl, rfl⟩

theorem first_of_QListResults (zxres : List ZXing.Result) :
    (match QListResults zxres with
      | r :: _ => r
      | [] => Result.default) =
    ((zxres.head?).map Result.ofZXing).getD Result.default := by
  rw [QListResults_eq_map]
  cases zxres <;> rfl

/-- C6: `ReadBarcode`, for a `QImage` and for a `QVideoFrame`, runs the matching
`ReadBarcodes` on the caller's options with only the maximum number of symbols
changed, to 1, so every decoder invocation receives exactly those options; the
wrapped list keeps the decoder's order, one wrapper per result; the value
returned is the wrapper of the first result of the decoder invocation, and the
default-constructed `Result`, which has run time 0 and is not valid, when the
decoder found nothing or was not invoked. -/
theorem ReadBarcode_first_or_default (b : Build) (x : External) (img : QImage)
    (frame : QVideoFrame) (opts : ReaderOptions) :
    ((opts.setMaxNumberOfSymbols 1).maxNumberOfSymbols = 1 ∧
      { opts.setMaxNumberOfSymbols 1 with maxNumberOfSymbols := opts.maxNumberOfSymbols }
        = opts) ∧
    (∀ zxres : List ZXing.Result, QListResults zxres = zxres.map Result.ofZXing) ∧
    (Result.default.runTime = 0 ∧ Result.default.isValid = false) ∧
    ((ReadBarcode_QImage b x img opts).2 =
        (ReadBarcodes_QImage b x img (opts.setMaxNumberOfSymbols 1)).2 ∧
      (ReadBarcode_QImage b x img opts).1 =
        ((ReadBarcodes_QImage b x img (opts.setMaxNumberOfSymbols 1)).1.head?).getD
          Result.default ∧
      (∀ c ∈ decoderCalls (ReadBarcode_QImage b x img opts).2,
        c.2 = opts.setMaxNumberOfSymbols 1) ∧
      (ReadBarcode_QImage b x img opts).1 =
        (match decoderCalls (ReadBarcode_QImage b x img opts).2 with
          | [] => Result.default
          | c :: _ => (((x.decoder c.1 c.2).head?).map Result.ofZXing).getD Result.default)) ∧
    ((ReadBarcode_QVideoFrame b x frame opts).2 =
        (ReadBarcodes_QVideoFrame b x frame (opts.setMaxNumberOfSymbols 1)).2 ∧
      (ReadBarcode_QVideoFrame b x frame opts).1 =
        ((ReadBarcodes_QVideoFrame b x frame (opts.setMaxNumberOfSymbols 1)).1.head?).getD
          Result.default ∧
      (∀ c ∈ decoderCalls (ReadBarcode_QVideoFrame b x frame opts).2,
        c.2 = opts.setMaxNumberOfSymbols 1) ∧
      (ReadBarcode_QVideoFrame b x frame opts).1 =
        (match decoderCalls (ReadBarcode_QVideoFrame b x frame opts).2 with
          | [] => Result.default
          | c :: _ =>
            (((x.decoder c.1 c.2).head?).map Result.ofZXing).getD Result.default)) := by
  refine ⟨⟨rfl, rfl⟩, QListResults_eq_map, ⟨rfl, rfl⟩, ⟨rfl, ?_, ?_, ?_⟩, ⟨rfl, ?_, ?_, ?_⟩⟩
  · simp only [ReadBarcode_QImage]
    cases (ReadBarcodes_QImage b x img (opts.setMaxNumberOfSymbols 1)).1 <;> rfl
  · obtain ⟨view, hc, _⟩ := ReadBarcodes_QImage_results b x img (opts.setMaxNumberOfSymbols 1)
    intro c hmem
    simp only [ReadBarcode_QImage, hc, List.mem_singleton] at hmem
    rw [hmem]
  · obtain ⟨view, hc, hr⟩ := ReadBarcodes_QImage_results b x img (opts.setMaxNumberOfSymbols 1)
    simp only [ReadBarcode_QImage, hc, hr]
    exact first_of_QListResults _
  · simp only [ReadBarcode_QVideoFrame]
    cases (ReadBarcodes_QVideoFrame b x frame (opts.setMaxNumberOfSymbols 1)).1 <;> rfl
  · intro c hmem
    rcases ReadBarcodes_QVideoFrame_results b x frame (opts.setMaxNumberOfSymbols 1) with
      ⟨hc, _⟩ | ⟨view, hc, _⟩
    · simp only [ReadBarcode_QVideoFrame, hc, List.not_mem_nil] at hmem
    · simp only [ReadBarcode_QVideoFrame, hc, List.mem_singleton] at hmem
      rw [hmem]
  · rcases ReadBarcodes_QVideoFrame_results b x frame (opts.setMaxNumberOfSymbols 1) with
      ⟨hc, hr⟩ | ⟨view, hc, hr⟩
    · simp only [ReadBarcode_QVideoFrame, hc, hr]
    · simp only [ReadBarcode_QVideoFrame, hc, hr]
      exact first_of_QListResults _

theorem signals_adapter_append (es : List Effect) (rest : List ReaderEffect) :
    signals (es.map ReaderEffect.adapter ++ rest) = signals rest := by
  induction es with
  | nil => rfl
  | cons e es ih => simpa [signals] using ih

theorem toInt_of_fits (v : Int) (h0 : 0 ≤ v) (h1 : v < 2 ^ 31) : toInt v = v := by
  unfold toInt
  omega

/-- C7: for every video frame `BarcodeReader::process` leaves the reader as it
was, returns the result of `ReadBarcode` on the frame with the reader's options
and with `runTime` set from the elapsed time (the elapsed time itself whenever
it fits an `int`), and emits `newResult` with that same result exactly once,
followed by `foundBarcode` with it exactly once when the result is valid and
by nothing when it is not. -/
theorem process_emits (b : Build) (x : External) (self : BarcodeReader)
    (image : QVideoFrame) (elapsed : Int) :
    (BarcodeReader.process b x self image elapsed).1 = self ∧
    (BarcodeReader.process b x self image elapsed).2.1 =
      { (ReadBarcode_QVideoFrame b x image self.options).1 with runTime := toInt elapsed } ∧
    ((BarcodeReader.process b x self image elapsed).2.1.isValid =
      (ReadBarcode_QVideoFrame b x image self.options).1.isValid) ∧
    (0 ≤ elapsed → elapsed < 2 ^ 31 →
      (BarcodeReader.process b x self image elapsed).2.1.runTime = elapsed) ∧
    ((BarcodeReader.process b x self image elapsed).2.1.isValid = true →
      signals (BarcodeReader.process b x self image elapsed).2.2 =
        [Signal.newResult (BarcodeReader.process b x self image elapsed).2.1,
         Signal.foundBarcode (BarcodeReader.process b x self image elapsed).2.1]) ∧
    ((BarcodeReader.process b x self image elapsed).2.1.isValid = false →
      signals (BarcodeReader.process b x self image elapsed).2.2 =
        [Signal.newResult (BarcodeReader.process b x self image elapsed).2.1]) ∧
    (∀ r, (signals (BarcodeReader.process b x self image elapsed).2.2).count
        (Signal.newResult r) =
      if r = (BarcodeReader.process b x self image elapsed).2.1 then 1 else 0) ∧
    (∀ r, (signals (BarcodeReader.process b x self image elapsed).2.2).count
        (Signal.foundBarcode r) =
      if r = (BarcodeReader.process b x self image elapsed).2.1 ∧
          (BarcodeReader.process b x self image elapsed).2.1.isValid = true
        then 1 else 0) := by
  refine ⟨rfl, rfl, rfl, ?_, ?_, ?_, ?_, ?_⟩
  · intro h0 h1
    exact toInt_of_fits elapsed h0 h1
  · intro hv
    simp only [BarcodeReader.process] at hv ⊢
    rw [List.append_assoc, signals_adapter_append]
    simp [hv, signals]
  · intro hv
    simp only [BarcodeReader.process] at hv ⊢
    rw [List.append_assoc, signals_adapter_append]
    simp [hv, signals]
  · intro r
    simp only [BarcodeReader.process]
    rw [List.append_assoc, signals_adapter_append]
    by_cases hv : Result.isValid
        { (ReadBarcode_QVideoFrame b x image self.options).1 with runTime := toInt elapsed }
          = true
    · by_cases hr : r =
          { (ReadBarcode_QVideoFrame b x image self.options).1 with runTime := toInt elapsed }
      · simp [hv, signals, hr]
      · simp [hv, signals, hr, Ne.symm hr, List.count_cons]
    · by_cases hr : r =
          { (ReadBarcode_QVideoFrame b x image self.options).1 with runTime := toInt elapsed }
      · simp [hv, signals, hr]
      · simp [hv, signals, hr, Ne.symm hr, List.count_cons]
  · intro r
    simp only [BarcodeReader.process]
    rw [List.append_assoc, signals_adapter_append]
    by_cases hv : Result.isValid
        { (ReadBarcode_QVideoFrame b x image self.options).1 with runTime := toInt elapsed }
          = true
    · by_cases hr : r =
          { (ReadBarcode_QVideoFrame b x image self.options).1 with runTime := toInt elapsed }
      · simp [hv, signals, hr]
      · simp [hv, signals, hr, Ne.symm hr, List.count_cons]
    · simp [hv, signals, List.count_cons]

/-- C8: each of `setFormats`, `setTryRotate`, `setTryHarder` and
`setTryDownscale` emits its own change signal exactly once, and no other
signal, when the new value differs from the current one, and does nothing when
it is equal; afterwards the matching getter returns the new value and every
other option is as before; so a second call with the same value emits nothing
and two calls in a row emit at most one signal. -/
theorem setters_notify_on_change (self : BarcodeReader) (newFormats : Int) (newVal : Bool) :
    ((self.formats ≠ newFormats →
        signals (self.setFormats newFormats).2 = [Signal.formatsChanged]) ∧
      (self.formats = newFormats → self.setFormats newFormats = (self, [])) ∧
      (self.setFormats newFormats).1.formats = newFormats ∧
      { (self.setFormats newFormats).1.options with formats := self.options.formats }
        = self.options ∧
      signals ((self.setFormats newFormats).1.setFormats newFormats).2 = [] ∧
      (signals (self.setFormats newFormats).2 ++
        signals ((self.setFormats newFormats).1.setFormats newFormats).2).length ≤ 1) ∧
    ((self.tryRotate ≠ newVal →
        (self.setTryRotate newVal).2 = [ReaderEffect.emitted Signal.tryRotateChanged]) ∧
      (self.tryRotate = newVal → self.setTryRotate newVal = (self, [])) ∧
      (self.setTryRotate newVal).1.tryRotate = newVal ∧
      { (self.setTryRotate newVal).1.options with tryRotate := self.options.tryRotate }
        = self.options ∧
      signals ((self.setTryRotate newVal).1.setTryRotate newVal).2 = [] ∧
      (signals (self.setTryRotate newVal).2 ++
        signals ((self.setTryRotate newVal).1.setTryRotate newVal).2).length ≤ 1) ∧
    ((self.tryHarder ≠ newVal →
        (self.setTryHarder newVal).2 = [ReaderEffect.emitted Signal.tryHarderChanged]) ∧
      (self.tryHarder = newVal → self.setTryHarder newVal = (self, [])) ∧
      (self.setTryHarder newVal).1.tryHarder = newVal ∧
      { (self.setTryHarder newVal).1.options with tryHarder := self.options.tryHarder }
        = self.options ∧
      signals ((self.setTryHarder newVal).1.setTryHarder newVal).2 = [] ∧
      (signals (self.setTryHarder newVal).2 ++
        signals ((self.setTryHarder newVal).1.setTryHarder newVal).2).length ≤ 1) ∧
    ((self.tryDownscale ≠ newVal →
        (self.setTryDownscale newVal).2 = [ReaderEffect.emitted Signal.tryDownscaleChanged]) ∧
      (self.tryDownscale = newVal → self.setTryDownscale newVal = (self, [])) ∧
      (self.setTryDownscale newVal).1.tryDownscale = newVal ∧
      { (self.setTryDownscale newVal).1.options with
          tryDownscale := self.options.tryDownscale } = self.options ∧
      signals ((self.setTryDownscale newVal).1.setTryDownscale newVal).2 = [] ∧
      (signals (self.setTryDownscale newVal).2 ++
        signals ((self.setTryDownscale newVal).1.setTryDownscale newVal).2).length ≤ 1) := by
  obtain ⟨⟨formats, tryHarder, tryRotate, tryInvert, tryDownscale, isPure, returnErrors,
    binarizer, minLineCount, maxNumberOfSymbols⟩⟩ := self
  refine ⟨?_, ?_, ?_, ?_⟩
  · by_cases h : formats = newFormats
    · simp [BarcodeReader.setFormats, BarcodeReader.formats, ReaderOptions.setFormats,
        signals, h]
    · simp [BarcodeReader.setFormats, BarcodeReader.formats, ReaderOptions.setFormats,
        signals, h]
  · cases tryRotate <;> cases newVal <;>
      simp [BarcodeReader.setTryRotate, BarcodeReader.tryRotate, ReaderOptions.setTryRotate,
        signals]
  · cases tryHarder <;> cases newVal <;>
      simp [BarcodeReader.setTryHarder, BarcodeReader.tryHarder, ReaderOptions.setTryHarder,
        signals]
  · cases tryDownscale <;> cases newVal <;>
      simp [BarcodeReader.setTryDownscale, BarcodeReader.tryDownscale,
        ReaderOptions.setTryDownscale, signals]

theorem ReadBarcodes_QVideoFrame_unsupported (b : Build) (x : External) (frame : QVideoFrame)
    (opts : ReaderOptions)
    (hsw : (pixelFormatSwitch b frame.pixelFormat).1 = ImageFormat.None)
    (himg : x.imageFormatFromPixelFormat frame.pixelFormat ≠ QImage.Format.Format_Invalid) :
    ReadBarcodes_QVideoFrame b x frame opts =
      ([], [Effect.warning Warning.unsupportedPixelFormat]) := by
  simp [ReadBarcodes_QVideoFrame, hsw, himg]

theorem ReadBarcodes_QVideoFrame_fallback (b : Build) (x : External) (frame : QVideoFrame)
    (opts : ReaderOptions)
    (hsw : (pixelFormatSwitch b frame.pixelFormat).1 = ImageFormat.None)
    (himg : x.imageFormatFromPixelFormat frame.pixelFormat = QImage.Format.Format_Invalid)
    (hvalid : (x.image frame).format ≠ QImage.Format.Format_Invalid) :
    ReadBarcodes_QVideoFrame b x frame opts =
      ReadBarcodes_QImage b x (x.image frame) opts := by
  simp [ReadBarcodes_QVideoFrame, hsw, himg, hvalid]

theorem Qt6_ReadBarcodes_QVideoFrame_fallback (b : Build) (x : External)
    (toImage : Qt6.QVideoFrame → QImage) (frame : Qt6.QVideoFrame) (opts : ReaderOptions)
    (hsw : (Qt6.pixelFormatSwitch b.littleEndian frame.pixelFormat).1 = ImageFormat.None)
    (himg : (toImage frame).format ≠ QImage.Format.Format_Invalid) :
    Qt6.ReadBarcodes_QVideoFrame b x toImage frame opts =
      ReadBarcodes_QImage b x (toImage frame) opts := by
  simp [Qt6.ReadBarcodes_QVideoFrame, hsw, himg]

/-- C9, the code at a mapped RGB565 frame of a Qt 5 build: the pixel format is
not in the video table, the frame converts to a valid `Format_RGB16` image on
which the still-image path would invoke the decoder and return its result,
yet `ReadBarcodes(QVideoFrame)` warns "unsupported QVideoFrame::pixelFormat"
and returns the empty list without invoking the decoder. -/
theorem ReadBarcodes_QVideoFrame_rgb565 :
    (pixelFormatSwitch Sample.build Sample.rgb565Frame.pixelFormat).1 = ImageFormat.None ∧
    Sample.external.imageFormatFromPixelFormat Sample.rgb565Frame.pixelFormat =
      QImage.Format.Format_RGB16 ∧
    (Sample.external.image Sample.rgb565Frame).format = QImage.Format.Format_RGB16 ∧
    (ReadBarcodes_QImage Sample.build Sample.external
        (Sample.external.image Sample.rgb565Frame) ReaderOptions.default).1 =
      [Result.ofZXing Sample.zxResult] ∧
    ReadBarcodes_QVideoFrame Sample.build Sample.external Sample.rgb565Frame
        ReaderOptions.default =
      ([], [Effect.warning Warning.unsupportedPixelFormat]) ∧
    decoderCalls
        (ReadBarcodes_QVideoFrame Sample.build Sample.external Sample.rgb565Frame
          ReaderOptions.default).2 = [] := by
  refine ⟨by decide, by decide, by decide, by decide, ?_, ?_⟩
  · exact ReadBarcodes_QVideoFrame_unsupported _ _ _ _ (by decide) (by decide)
  · rw [ReadBarcodes_QVideoFrame_unsupported _ _ _ _ (by decide) (by decide)]
    rfl

/-- C10: for every video pixel format, in a Qt 5 build of either byte order and
any minor version and in a Qt 6 build of either byte order, the selected pixel
stride is non-zero only with format Lum, the pixel offset is non-zero only
with a non-zero pixel stride and is then strictly smaller than it, neither is
negative, and both are 0 when the format is None. -/
theorem pixelFormatSwitch_bounds (b : Build) (pf : QVideoFrame.PixelFormat)
    (pf6 : Qt6.PixelFormat) :
    (((pixelFormatSwitch b pf).2.1 ≠ 0 → (pixelFormatSwitch b pf).1 = ImageFormat.Lum) ∧
      ((pixelFormatSwitch b pf).2.2 ≠ 0 → (pixelFormatSwitch b pf).2.1 ≠ 0) ∧
      ((pixelFormatSwitch b pf).2.1 ≠ 0 →
        (pixelFormatSwitch b pf).2.2 < (pixelFormatSwitch b pf).2.1) ∧
      0 ≤ (pixelFormatSwitch b pf).2.1 ∧
      0 ≤ (pixelFormatSwitch b pf).2.2 ∧
      ((pixelFormatSwitch b pf).1 = ImageFormat.None →
        (pixelFormatSwitch b pf).2.1 = 0 ∧ (pixelFormatSwitch b pf).2.2 = 0)) ∧
    (((Qt6.pixelFormatSwitch b.littleEndian pf6).2.1 ≠ 0 →
        (Qt6.pixelFormatSwitch b.littleEndian pf6).1 = ImageFormat.Lum) ∧
      ((Qt6.pixelFormatSwitch b.littleEndian pf6).2.2 ≠ 0 →
        (Qt6.pixelFormatSwitch b.littleEndian pf6).2.1 ≠ 0) ∧
      ((Qt6.pixelFormatSwitch b.littleEndian pf6).2.1 ≠ 0 →
        (Qt6.pixelFormatSwitch b.littleEndian pf6).2.2 <
          (Qt6.pixelFormatSwitch b.littleEndian pf6).2.1) ∧
      0 ≤ (Qt6.pixelFormatSwitch b.littleEndian pf6).2.1 ∧
      0 ≤ (Qt6.pixelFormatSwitch b.littleEndian pf6).2.2 ∧
      ((Qt6.pixelFormatSwitch b.littleEndian pf6).1 = ImageFormat.None →
        (Qt6.pixelFormatSwitch b.littleEndian pf6).2.1 = 0 ∧
        (Qt6.pixelFormatSwitch b.littleEndian pf6).2.2 = 0)) := by
  obtain ⟨littleEndian, qtMinor⟩ := b
  constructor
  · cases pf <;> cases littleEndian <;> simp [pixelFormatSwitch] <;> split <;> simp
  · cases pf6 <;> cases littleEndian <;> simp [Qt6.pixelFormatSwitch]

end AdapterProperties

/-! ## Properties of the barcode format enumeration -/

section BarcodeFormatProperties

open ZXingQt

/-- C11: in `ZXingQt::BarcodeFormat`, `None` is 0 and the 18 named single
formats, `Aztec` through `RMQRCode`, are the powers of two 2^0 to 2^17 in
declaration order, hence pairwise distinct; `LinearCodes` and `MatrixCodes`
have no bit in common, `LinearCodes` holds exactly 11 of the single formats
and `MatrixCodes` exactly 7, their union is 2^18 - 1, and every single format
belongs to exactly one of the two masks. -/
theorem BarcodeFormat_masks_partition :
    BarcodeFormat.None = 0 ∧
    BarcodeFormat.singleFormats.length = 18 ∧
    BarcodeFormat.singleFormats = (List.range 18).map (fun k => 2 ^ k) ∧
    BarcodeFormat.singleFormats.Nodup ∧
    BarcodeFormat.LinearCodes &&& BarcodeFormat.MatrixCodes = 0 ∧
    (BarcodeFormat.singleFormats.filter
      (fun f => BarcodeFormat.belongsTo f BarcodeFormat.LinearCodes)).length = 11 ∧
    (BarcodeFormat.singleFormats.filter
      (fun f => BarcodeFormat.belongsTo f BarcodeFormat.MatrixCodes)).length = 7 ∧
    BarcodeFormat.LinearCodes =
      (BarcodeFormat.singleFormats.filter
        (fun f => BarcodeFormat.belongsTo f BarcodeFormat.LinearCodes)).foldl
          (fun m f => m ||| f) 0 ∧
    BarcodeFormat.MatrixCodes =
      (BarcodeFormat.singleFormats.filter
        (fun f => BarcodeFormat.belongsTo f BarcodeFormat.MatrixCodes)).foldl
          (fun m f => m ||| f) 0 ∧
    BarcodeFormat.LinearCodes ||| BarcodeFormat.MatrixCodes = 2 ^ 18 - 1 ∧
    (∀ f ∈ BarcodeFormat.singleFormats,
      BarcodeFormat.belongsTo f BarcodeFormat.LinearCodes ≠
        BarcodeFormat.belongsTo f BarcodeFormat.MatrixCodes) := by
  refine ⟨rfl, rfl, by decide, by decide, by decide, by decide, by decide, by decide,
    by decide, by decide, by decide⟩

end BarcodeFormatProperties
